import Mathlib

/-!
Shallow embedding of the wallet-provider / on-chain purchase orchestration
layer of the DL-NFT-Books web client:

* `src/composables/use-nft-tokens.ts` (token/approval orchestrator:
  `_isErc20TokenApproved`, `getNftList`, `getNft`, `approveTokenSpend`,
  `_initContractRegistry`, `_initMarketPlace`),
* `src/composables/contracts/use-marketplace.ts` (marketplace accessor),
* `src/composables/contracts/use-contract-registry.ts` (registry accessor),
* the Metamask wallet provider wrapper (provider state, event listeners,
  `signAndSendTransaction`, `getBalance`).

Asynchronous effectful code is embedded as pure functions that, besides
their return value, emit the ordered list of external calls they issue
(an `EthCall` trace).  External collaborators (the chain, the ERC-20 and
ERC-721 token accessors, the metadata endpoint, the backend API) are
modelled as oracles supplied in environment records.  JavaScript
`undefined` results become `Option`, thrown errors become `Except`, and
the unbounded recursion of `_isErc20TokenApproved` is embedded with an
explicit fuel parameter whose exhaustion (`none`) models divergence.
-/

namespace NftBooks

/-- One external call issued by the orchestration layer.  `handleError`
records that a caught failure was routed to the centralized error
handler (`handleEthError`). -/
inductive EthCall where
  /-- `networkStore.loadNetworks()`: backend fetch of the network list. -/
  | loadNetworks : EthCall
  /-- A read call on a contract: method name and contract address. -/
  | contractRead (method : String) (contractAddr : String) : EthCall
  /-- A transaction sent through the wallet signer to address `dest`. -/
  | sendTx (dest : String) : EthCall
  /-- ERC-20 `allowance(owner, spender)` read. -/
  | getAllowance (owner spender : String) : EthCall
  /-- ERC-20 `approve(spender, amount)` transaction. -/
  | approveErc20 (spender : String) (amount : Nat) : EthCall
  /-- ERC-721 `approve(spender, tokenId)` transaction. -/
  | approveErc721 (spender tokenId : String) : EthCall
  /-- ERC-721 `tokenURI(tokenId)` read on contract `contractAddr`. -/
  | tokenURI (contractAddr tokenId : String) : EthCall
  /-- HTTP fetch of an NFT metadata document at `uri`. -/
  | fetchMetadata (uri : String) : EthCall
  /-- Backend API query for the payment record of a token. -/
  | getPayment (tokenAddr tokenId : String) : EthCall
  /-- `provider.getBalance(address)` RPC read. -/
  | getBalance (address : String) : EthCall
  /-- A caught error was routed to the centralized `handleEthError`. -/
  | handleError : EthCall
  deriving DecidableEq, Repr

/-! ### Wallet provider wrapper state (Metamask wrapper) -/

/-- Provider State of the wallet wrapper: `chainId` and
`selectedAddress` refs.  `chainId` starts as the falsy `''` and is later
assigned the numeric `network.chainId`; we model it as a `Nat` where `0`
is the falsy/unset value (both `''` and `0` are falsy in JavaScript). -/
structure ProviderState where
  chainId : Nat
  selectedAddress : String
  deriving DecidableEq, Repr

/-- `isConnected` computed: `Boolean(selectedAddress.value && chainId.value)`. -/
def isConnected (p : ProviderState) : Bool :=
  p.selectedAddress ≠ "" && p.chainId ≠ 0

/-- The wallet `disconnect` event callback registered by `_setListeners`:
`selectedAddress.value = ''`. -/
def onDisconnect (p : ProviderState) : ProviderState :=
  { p with selectedAddress := "" }

/-! ### ERC-20 approval recursion (`_isErc20TokenApproved`) -/

/-- Modelled from the spec: `BN.compare` of `@/utils/math.util` (not under
`src/`) is the standard big-number three-way comparison used by the
allowance check, returning `1`, `0` or `-1` as the first operand is
greater than, equal to, or less than the second. -/
def bnCompare (a b : Nat) : Int :=
  if a < b then -1 else if a = b then 0 else 1

/-- Modelled from the spec: the ERC-20 accessor (`useErc20`, not under
`src/`) exposes `getAllowance(owner, spender)` and
`approve(spender, amount)`; `getAllowance` returns the current allowance
or `undefined` on failure.  `allowanceAt k` is the value returned by the
`k`-th allowance read of one orchestrator call. -/
structure Erc20Env where
  selectedAddress : String
  allowanceAt : Nat → Option Nat

/-- Fuel-indexed embedding of `_isErc20TokenApproved(tokenAmount)`
(the recursive body; `src/composables/use-nft-tokens.ts`, lines 112-135).
`k` is the index of the next allowance read; the result carries the
returned boolean, the next read index and the emitted call trace.
`none` models exhaustion of the fuel, i.e. divergence of the unbounded
recursion.  Mirrors the source control flow: guard on
`provider.value.selectedAddress`, read the allowance (an `undefined`
read is coerced to `0` by `allowance?.toString() || 0`), return `true`
when `compare` yields `1` or `0`, approve when it yields `-1`, then
recurse unconditionally on the same amount. -/
def isErc20TokenApprovedAux (env : Erc20Env) (marketPlaceAddress : String)
    (tokenAmount : Nat) : Nat → Nat → Option (Bool × Nat × List EthCall)
  | 0, _ => none
  | fuel + 1, k =>
    if env.selectedAddress = "" then some (false, k, [])
    else
      let allowance := (env.allowanceAt k).getD 0
      let readEv : List EthCall :=
        [EthCall.getAllowance env.selectedAddress marketPlaceAddress]
      if bnCompare allowance tokenAmount = 1 ∨ bnCompare allowance tokenAmount = 0 then
        some (true, k + 1, readEv)
      else
        let approveEv : List EthCall :=
          if bnCompare allowance tokenAmount = -1 then
            [EthCall.approveErc20 marketPlaceAddress tokenAmount]
          else []
        match isErc20TokenApprovedAux env marketPlaceAddress tokenAmount fuel (k + 1) with
        | none => none
        | some (b, k2, tr) => some (b, k2, readEv ++ approveEv ++ tr)

/-- Top-level `_isErc20TokenApproved(tokenAmount, tokenAddress?)`: the
initial call starts at read index `0` (the optional `tokenAddress` only
re-targets the ERC-20 accessor via `initErc20`, a pure address
assignment that issues no call, so it does not affect the trace). -/
def isErc20TokenApproved (env : Erc20Env) (marketPlaceAddress : String)
    (tokenAmount : Nat) (fuel : Nat) : Option (Bool × Nat × List EthCall) :=
  if env.selectedAddress = "" then some (false, 0, [])
  else isErc20TokenApprovedAux env marketPlaceAddress tokenAmount fuel 0

/-! ### Wallet provider wrapper operations -/

/-- Environment for the wallet wrapper and the signer: whether the
`sendTransaction` / confirmation-wait step throws, the receipt returned
on success, whether `provider.getBalance` throws, and the balance
returned on success. -/
structure WalletEnv where
  txThrows : Bool
  txReceipt : Nat
  balanceThrows : Bool
  balance : Nat

/-- Call data encoded by `contractInterface.encodeFunctionData` for the
three purchase variants.  The payloads (`BuyParams`, `Signature`) are
opaque to every property proved here, so they are represented
abstractly. -/
structure BuyParams where
  paymentTokenAddress : String
  paymentTokenPrice : String
  discount : String
  nftTokenId : String
  tokenContract : String
  recipient : String
  tokenId : String
  tokenURI : String
  deriving DecidableEq, Repr

/-- An off-chain purchase authorization signature. -/
structure Signature where
  r : String
  s : String
  v : Nat
  endSigTimestamp : Nat
  deriving DecidableEq, Repr

/-- Encoded transaction call data (pure, issues no call). -/
inductive CallData where
  | buyETH (bp : BuyParams) (sig : Signature) : CallData
  | buyERC20 (bp : BuyParams) (sig : Signature) : CallData
  | buyNFT (bp : BuyParams) (sig : Signature) : CallData
  deriving DecidableEq, Repr

/-- A transaction request body: destination, call data, optional value. -/
structure TxRequestBody where
  dest : String
  data : CallData
  value : Option String
  deriving DecidableEq, Repr

/-- `signAndSendTransaction` of the Metamask wrapper: sends the
transaction through the current signer and awaits confirmation inside
`try`; any failure is caught and routed to `handleEthError`, and the
function then returns `undefined`. -/
def signAndSendTransaction (env : WalletEnv) (tx : TxRequestBody) :
    Option Nat × List EthCall :=
  if env.txThrows then (none, [EthCall.sendTx tx.dest, EthCall.handleError])
  else (some env.txReceipt, [EthCall.sendTx tx.dest])

/-- `getBalance` of the Metamask wrapper: reads the balance through the
current provider and stringifies it.  There is no `try`/`catch`: a
provider failure propagates to the caller as an exception (`Except.error`). -/
def getBalanceOp (env : WalletEnv) (address : String) :
    Except Unit String × List EthCall :=
  if env.balanceThrows then (Except.error (), [EthCall.getBalance address])
  else (Except.ok (toString env.balance), [EthCall.getBalance address])

/-! ### Marketplace contract accessor (`use-marketplace.ts`) -/

/-- Accessor state: the `contractAddress` ref (initially `''` unless an
address was passed to the composable). -/
structure MarketplaceState where
  contractAddress : String
  deriving DecidableEq, Repr

/-- A token entry of `getUserTokensPart`: contract address plus the
owned token ids (big numbers, carried as `Nat`). -/
structure UserTokensStruct where
  tokenContract : String
  tokenIds : List Nat
  deriving DecidableEq, Repr

/-- Environment for the marketplace accessor: whether the provider (and
its `currentProvider`) is present, whether a contract read throws, the
abstract payload returned by a successful read, the token list returned
by `getUserTokensPart`, and the wallet environment used by the purchase
calls. -/
structure MarketplaceEnv where
  hasProvider : Bool
  readThrows : Bool
  readResult : Nat
  userTokensResult : List UserTokensStruct
  wallet : WalletEnv

/-- The `contractInstance` computed of the marketplace accessor is
defined (non-`undefined`) iff the provider with its `currentProvider`
is present and the contract address is non-empty. -/
def mpInstanceDefined (st : MarketplaceState) (env : MarketplaceEnv) : Bool :=
  env.hasProvider && st.contractAddress ≠ ""

/-- `init(address)` of the marketplace accessor: no-op on a falsy
address, otherwise sets the contract address. -/
def mpInit (st : MarketplaceState) (address : String) : MarketplaceState :=
  if address = "" then st else { st with contractAddress := address }

/-- Shared shape of the five paginated read operations
(`getTokenParams`, `getTokenContractsCount`, `getBooksContracts`,
`getBooksBatch`, `getUserTokens`): return `undefined` without calling
out when the contract instance is undefined; otherwise issue the read
and, on a throw, route to `handleEthError` and return `undefined`. -/
def mpRead (st : MarketplaceState) (env : MarketplaceEnv) (method : String) :
    Option Nat × List EthCall :=
  if ¬ mpInstanceDefined st env then (none, [])
  else if env.readThrows then
    (none, [EthCall.contractRead method st.contractAddress, EthCall.handleError])
  else (some env.readResult, [EthCall.contractRead method st.contractAddress])

/-- `getTokenParams(tokenContracts)`: `getDetailedTokenInfo` read. -/
def getTokenParams (st : MarketplaceState) (env : MarketplaceEnv)
    (_tokenContracts : List String) : Option Nat × List EthCall :=
  mpRead st env "getDetailedTokenInfo"

/-- `getTokenContractsCount()`: `getActiveTokenContractsCount` read. -/
def getTokenContractsCount (st : MarketplaceState) (env : MarketplaceEnv) :
    Option Nat × List EthCall :=
  mpRead st env "getActiveTokenContractsCount"

/-- `getBooksContracts(limit, offset)`: `getTokenContractsPart` read. -/
def getBooksContracts (st : MarketplaceState) (env : MarketplaceEnv)
    (_limit _offset : Nat) : Option Nat × List EthCall :=
  mpRead st env "getTokenContractsPart"

/-- `getBooksBatch(limit, offset)`: `getBriefTokenInfoPart` read. -/
def getBooksBatch (st : MarketplaceState) (env : MarketplaceEnv)
    (_limit _offset : Nat) : Option Nat × List EthCall :=
  mpRead st env "getBriefTokenInfoPart"

/-- `getUserTokens(userAddress, limit, offset)`: `getUserTokensPart`
read, returning the token list on success. -/
def getUserTokens (st : MarketplaceState) (env : MarketplaceEnv)
    (_userAddress : String) (_limit _offset : Nat) :
    Option (List UserTokensStruct) × List EthCall :=
  if ¬ mpInstanceDefined st env then (none, [])
  else if env.readThrows then
    (none, [EthCall.contractRead "getUserTokensPart" st.contractAddress,
            EthCall.handleError])
  else (some env.userTokensResult,
        [EthCall.contractRead "getUserTokensPart" st.contractAddress])

/-- `buyTokenWithETH(buyParams, signature, value?)`: guarded by
`if (!contractInstance.value) return`, then encodes the call data and
asks the wallet wrapper to sign and send a transaction to the contract
address, attaching `value` when present. -/
def buyTokenWithETH (st : MarketplaceState) (env : MarketplaceEnv)
    (bp : BuyParams) (sig : Signature) (value : Option String) :
    Option Nat × List EthCall :=
  if ¬ mpInstanceDefined st env then (none, [])
  else
    signAndSendTransaction env.wallet
      { dest := st.contractAddress, data := CallData.buyETH bp sig, value := value }

/-- `buyTokenWithERC20(buyParams, signature)`: encodes the call data and
signs-and-sends to the contract address.  Note: unlike `buyTokenWithETH`
and the reads, the source has NO `contractInstance` guard here. -/
def buyTokenWithERC20 (st : MarketplaceState) (env : MarketplaceEnv)
    (bp : BuyParams) (sig : Signature) : Option Nat × List EthCall :=
  signAndSendTransaction env.wallet
    { dest := st.contractAddress, data := CallData.buyERC20 bp sig, value := none }

/-- `buyTokenWithNFT(buyParams, signature)`: encodes the call data and
signs-and-sends to the contract address.  Like `buyTokenWithERC20`, the
source has NO `contractInstance` guard here. -/
def buyTokenWithNFT (st : MarketplaceState) (env : MarketplaceEnv)
    (bp : BuyParams) (sig : Signature) : Option Nat × List EthCall :=
  signAndSendTransaction env.wallet
    { dest := st.contractAddress, data := CallData.buyNFT bp sig, value := none }

/-! ### Contract registry accessor (`use-contract-registry.ts`) -/

/-- Environment for the registry accessor: presence of the connected
provider and of the read-only default provider, whether the registry
read throws, and the marketplace address it returns on success. -/
structure RegistryEnv where
  hasCurrentProvider : Bool
  hasDefaultProvider : Bool
  readThrows : Bool
  marketplaceAddr : String

/-- The registry `contractInstance` computed: connect through the
connected signer when the provider is connected, else through the
default provider; `undefined` when neither branch applies or the
address is empty. -/
def regInstanceDefined (regAddress : String) (connected : Bool)
    (env : RegistryEnv) : Bool :=
  (connected && env.hasCurrentProvider && regAddress ≠ "") ||
    (env.hasDefaultProvider && regAddress ≠ "")

/-- `getMarketPlaceAddress()`: `undefined` without a call when the
instance is undefined; otherwise a `getMarketplaceContract` read whose
throw is routed to `handleEthError` (returning `undefined`). -/
def getMarketPlaceAddress (regAddress : String) (connected : Bool)
    (env : RegistryEnv) : Option String × List EthCall :=
  if ¬ regInstanceDefined regAddress connected env then (none, [])
  else if env.readThrows then
    (none, [EthCall.contractRead "getMarketplaceContract" regAddress,
            EthCall.handleError])
  else (some env.marketplaceAddr,
        [EthCall.contractRead "getMarketplaceContract" regAddress])

/-! ### Token/approval orchestrator (`use-nft-tokens.ts`) -/

/-- One entry of the networks store list: chain id and the registry
(factory) contract address deployed on that chain. -/
structure Network where
  chain_id : Nat
  factory_address : String
  deriving DecidableEq, Repr

/-- An NFT metadata document fetched from the token URI. -/
structure NftMetadata where
  name : String
  description : String
  image : String
  external_url : String
  deriving DecidableEq, Repr

/-- `TokensRaw`: a formatted owned-token entry (`_formatToken` output). -/
structure TokensRaw where
  tokenContract : String
  tokenIds : List String
  deriving DecidableEq, Repr

/-- `TokenBaseInfo`: contract, token id and metadata. -/
structure TokenBaseInfo where
  tokenContract : String
  tokenId : String
  metadata : NftMetadata
  deriving DecidableEq, Repr

/-- `TokenFullInfo`: `TokenBaseInfo` plus the joined payment record
(`data[0]` of the backend query, which is `undefined` when the page is
empty — hence `Option`; the record itself is opaque here). -/
structure TokenFullInfo where
  tokenContract : String
  tokenId : String
  metadata : NftMetadata
  payment : Option Nat
  deriving DecidableEq, Repr

/-- Mutable state threaded through the orchestrator composable: the
networks store list, the registry accessor address, the
`marketPlaceAddress` ref of `useNftTokens`, and the marketplace
accessor state. -/
structure NftState where
  networks : List Network
  regAddress : String
  marketPlaceAddress : String
  mp : MarketplaceState
  deriving DecidableEq, Repr

/-- Environment for the orchestrator flows.  `tokenURIs` is modelled
from the spec: the ERC-721 accessor (`useErc721`, not under `src/`)
reads `tokenURI(tokenId)` on-chain and yields `undefined` on failure.
`metadata` is modelled from the spec: `_loadMetadata` fetches the
document over HTTP with a fixed 8000 ms timeout via `useFetch`, and
yields `null` on failure or timeout.  `payments` is the backend
payment-tracker query result (first record of the page, if any). -/
structure NftEnv where
  provider : ProviderState
  defaultChainId : Nat
  loadedNetworks : List Network
  registry : RegistryEnv
  mp : MarketplaceEnv
  tokenURIs : String → String → Option String
  metadata : String → Option NftMetadata
  payments : String → String → Option Nat

/-- JavaScript truthiness of an optional string: `undefined` and `''`
are falsy. -/
def truthyStr : Option String → Option String
  | some "" => none
  | some s => some s
  | none => none

/-- `_initContractRegistry(chainId)`: load the networks list when the
store is empty, look up the registry (factory) address for the chain,
fall back to the default chain when absent, throw
`failed to get default registry address` when the fallback is also
absent, and otherwise target the registry accessor at the found
address (`initRegistry` is a no-op on a falsy address, and both
branches pass a truthy one). -/
def initContractRegistry (st : NftState) (env : NftEnv) (chainId : Nat) :
    Except String NftState × List EthCall :=
  let nets := if st.networks.isEmpty then env.loadedNetworks else st.networks
  let tr : List EthCall := if st.networks.isEmpty then [EthCall.loadNetworks] else []
  let st1 := { st with networks := nets }
  match truthyStr ((nets.find? (fun n => n.chain_id = chainId)).map
      (fun n => n.factory_address)) with
  | some a => (Except.ok { st1 with regAddress := a }, tr)
  | none =>
    match truthyStr ((nets.find? (fun n => n.chain_id = env.defaultChainId)).map
        (fun n => n.factory_address)) with
    | some d => (Except.ok { st1 with regAddress := d }, tr)
    | none => (Except.error "failed to get default registry address", tr)

/-- `_initMarketPlace(address?)`: use the argument when truthy, else ask
the registry for the marketplace address; on a falsy result do nothing,
otherwise set the `marketPlaceAddress` ref and re-target the
marketplace accessor (`initMarketPlace`). -/
def initMarketPlaceFlow (st : NftState) (env : NftEnv) (address : Option String) :
    NftState × List EthCall :=
  let fromChain :=
    match truthyStr address with
    | some a => (some a, ([] : List EthCall))
    | none =>
      getMarketPlaceAddress st.regAddress (isConnected env.provider) env.registry
  match truthyStr fromChain.1 with
  | none => (st, fromChain.2)
  | some a =>
    ({ st with marketPlaceAddress := a, mp := mpInit st.mp a }, fromChain.2)

/-- `_formatToken`: keeps the contract address and renders each token id
big number as its decimal string (`new BN(el._hex).toString()`). -/
def formatToken (t : UserTokensStruct) : TokensRaw :=
  { tokenContract := t.tokenContract, tokenIds := t.tokenIds.map toString }

/-- The inner loop of `getNftList` over one contract: for each token id
read the token URI (skip the token when it is falsy), fetch the
metadata (skip when it is falsy), else collect a `TokenBaseInfo`. -/
def processTokenIds (env : NftEnv) (tokenContract : String) :
    List String → List TokenBaseInfo × List EthCall
  | [] => ([], [])
  | tokenId :: rest =>
    let uriTr : List EthCall := [EthCall.tokenURI tokenContract tokenId]
    match truthyStr (env.tokenURIs tokenContract tokenId) with
    | none =>
      let (l, tr) := processTokenIds env tokenContract rest
      (l, uriTr ++ tr)
    | some uri =>
      let fetchTr : List EthCall := [EthCall.fetchMetadata uri]
      match env.metadata uri with
      | none =>
        let (l, tr) := processTokenIds env tokenContract rest
        (l, uriTr ++ fetchTr ++ tr)
      | some m =>
        let (l, tr) := processTokenIds env tokenContract rest
        ({ tokenContract := tokenContract, tokenId := tokenId, metadata := m } :: l,
         uriTr ++ fetchTr ++ tr)

/-- The outer loop of `getNftList` over the filtered contracts
(`initErc721(tokenContract)` is a pure address assignment issuing no
call, so each inner read targets that contract). -/
def processContracts (env : NftEnv) : List TokensRaw → List TokenBaseInfo × List EthCall
  | [] => ([], [])
  | t :: rest =>
    let (l1, tr1) := processTokenIds env t.tokenContract t.tokenIds
    let (l2, tr2) := processContracts env rest
    (l1 ++ l2, tr1 ++ tr2)

/-- `getNftList(userAddress, limit, offset)`: empty result on a falsy
limit; otherwise (re)resolve the registry and marketplace addresses,
read the user's tokens, drop contracts with no token ids, and build the
metadata list, skipping entries whose URI or metadata is unavailable.
A throw of `_initContractRegistry` propagates. -/
def getNftList (st : NftState) (env : NftEnv) (userAddress : String)
    (limit offset : Nat) : Except String (List TokenBaseInfo) × List EthCall :=
  if limit = 0 then (Except.ok [], [])
  else
    match initContractRegistry st env env.provider.chainId with
    | (Except.error e, tr1) => (Except.error e, tr1)
    | (Except.ok st1, tr1) =>
      let (st2, tr2) := initMarketPlaceFlow st1 env none
      let (raw, tr3) := getUserTokens st2.mp env.mp userAddress limit offset
      match raw with
      | none => (Except.ok [], tr1 ++ tr2 ++ tr3)
      | some rawData =>
        let filteredData :=
          (rawData.filter (fun el => ¬ el.tokenIds.isEmpty)).map formatToken
        let (items, tr4) := processContracts env filteredData
        (Except.ok items, tr1 ++ tr2 ++ tr3 ++ tr4)

/-- `getNft(collectionAddress, tokenId)`: throws
`Provider is not connected` when the provider is not connected, then
resolves the registry and marketplace addresses, reads the token URI
(throwing `Failed to get tokenURI` when it is falsy), fetches the
metadata (throwing `Failed to get metadata` when it is falsy), and
joins the first payment record of the backend query. -/
def getNft (st : NftState) (env : NftEnv) (collectionAddress tokenId : String) :
    Except String TokenFullInfo × List EthCall :=
  if ¬ isConnected env.provider then
    (Except.error "Provider is not connected", [])
  else
    match initContractRegistry st env env.provider.chainId with
    | (Except.error e, tr1) => (Except.error e, tr1)
    | (Except.ok st1, tr1) =>
      let (_st2, tr2) := initMarketPlaceFlow st1 env none
      let uriTr : List EthCall := [EthCall.tokenURI collectionAddress tokenId]
      match truthyStr (env.tokenURIs collectionAddress tokenId) with
      | none => (Except.error "Failed to get tokenURI", tr1 ++ tr2 ++ uriTr)
      | some uri =>
        let fetchTr : List EthCall := [EthCall.fetchMetadata uri]
        match env.metadata uri with
        | none =>
          (Except.error "Failed to get metadata", tr1 ++ tr2 ++ uriTr ++ fetchTr)
        | some m =>
          let payTr : List EthCall := [EthCall.getPayment collectionAddress tokenId]
          (Except.ok
            { tokenContract := collectionAddress, tokenId := tokenId,
              metadata := m, payment := env.payments collectionAddress tokenId },
           tr1 ++ tr2 ++ uriTr ++ fetchTr ++ payTr)

/-- The token-type tag dispatched on by `approveTokenSpend`. -/
inductive TokenType where
  | native : TokenType
  | erc20 : TokenType
  | voucher : TokenType
  | nft : TokenType
  deriving DecidableEq, Repr

/-- `approveTokenSpend(tokenType, tokenAmount?, tokenAddress?, tokenId?)`:
no-op when the selected address or the marketplace address is unset; for
the ERC-20/voucher types, no-op when the token address or amount is
missing, else run `_isErc20TokenApproved`; for the NFT type, no-op when
the token address or token id is missing, else approve the single token
through the ERC-721 accessor (modelled from the spec: `useErc721.approve`
issues one approval transaction).  The result is the emitted trace;
`none` models divergence of the ERC-20 approval recursion. -/
def approveTokenSpend (env : Erc20Env) (marketPlaceAddress : String)
    (tokenType : TokenType) (tokenAmount : Option Nat)
    (tokenAddress : Option String) (tokenId : Option String) (fuel : Nat) :
    Option (List EthCall) :=
  if env.selectedAddress = "" ∨ marketPlaceAddress = "" then some []
  else
    match tokenType with
    | TokenType.erc20 | TokenType.voucher =>
      match truthyStr tokenAddress, tokenAmount with
      | some _, some amt =>
        (isErc20TokenApproved env marketPlaceAddress amt fuel).map
          (fun r => r.2.2)
      | _, _ => some []
    | TokenType.nft =>
      match truthyStr tokenAddress, truthyStr tokenId with
      | some _, some tid => some [EthCall.approveErc721 marketPlaceAddress tid]
      | _, _ => some []
    | TokenType.native => some []

/-! ### Sample concrete data used by witnesses and counterexamples -/

/-- A wallet environment whose calls all succeed. -/
def sampleWallet : WalletEnv :=
  { txThrows := false, txReceipt := 7, balanceThrows := false, balance := 100 }

/-- Sample purchase parameters (opaque to all properties). -/
def sampleBuyParams : BuyParams :=
  { paymentTokenAddress := "0xpay", paymentTokenPrice := "10", discount := "0",
    nftTokenId := "0", tokenContract := "0xbook", recipient := "0xme",
    tokenId := "1", tokenURI := "uri1" }

/-- Sample purchase signature (opaque to all properties). -/
def sampleSig : Signature :=
  { r := "r", s := "s", v := 27, endSigTimestamp := 99 }

/-- Sample ERC-20 environment: a selected wallet address, every
allowance read returning `5`. -/
def erc20EnvRich : Erc20Env :=
  { selectedAddress := "0xme", allowanceAt := fun _ => some 5 }

/-- Sample ERC-20 environment with no selected wallet address. -/
def erc20EnvNoAddr : Erc20Env :=
  { selectedAddress := "", allowanceAt := fun _ => some 5 }

/-- Sample ERC-20 environment whose allowance reads all fail
(`undefined`, coerced to `0` by the orchestrator). -/
def erc20EnvStuck : Erc20Env :=
  { selectedAddress := "0xme", allowanceAt := fun _ => none }

/-- A registry environment whose reads succeed. -/
def sampleRegEnv : RegistryEnv :=
  { hasCurrentProvider := true, hasDefaultProvider := true,
    readThrows := false, marketplaceAddr := "0xmarket" }

/-- A marketplace environment whose reads succeed and report that the
user owns no tokens. -/
def sampleMpEnvZero : MarketplaceEnv :=
  { hasProvider := true, readThrows := false, readResult := 0,
    userTokensResult := [], wallet := sampleWallet }

/-- Fresh orchestrator state: nothing loaded, no addresses resolved. -/
def sampleNftState : NftState :=
  { networks := [], regAddress := "", marketPlaceAddress := "",
    mp := { contractAddress := "" } }

/-- An orchestrator environment whose provider is disconnected. -/
def disconnectedNftEnv : NftEnv :=
  { provider := { chainId := 0, selectedAddress := "" },
    defaultChainId := 1, loadedNetworks := [], registry := sampleRegEnv,
    mp := sampleMpEnvZero, tokenURIs := fun _ _ => none,
    metadata := fun _ => none, payments := fun _ _ => none }

/-- A wallet environment whose signer and balance reads throw. -/
def throwingWallet : WalletEnv :=
  { txThrows := true, txReceipt := 0, balanceThrows := true, balance := 0 }

/-- A marketplace environment whose reads and transactions throw. -/
def throwingMpEnv : MarketplaceEnv :=
  { hasProvider := true, readThrows := true, readResult := 0,
    userTokensResult := [], wallet := throwingWallet }

/-- Discriminates the two per-token calls of the metadata pipeline (the
ERC-721 `tokenURI` read and the HTTP metadata fetch) from every other
external call. -/
def isMetadataCall : EthCall → Bool
  | EthCall.tokenURI _ _ => true
  | EthCall.fetchMetadata _ => true
  | _ => false

/-- Orchestrator state whose networks store already lists chain `5`. -/
def zeroTokensState : NftState :=
  { networks := [{ chain_id := 5, factory_address := "0xreg" }],
    regAddress := "", marketPlaceAddress := "", mp := { contractAddress := "" } }

/-- A connected environment on chain `5` where the user owns no
tokens and every read succeeds. -/
def zeroTokensEnv : NftEnv :=
  { provider := { chainId := 5, selectedAddress := "0xme" },
    defaultChainId := 1, loadedNetworks := [], registry := sampleRegEnv,
    mp := sampleMpEnvZero, tokenURIs := fun _ _ => none,
    metadata := fun _ => none, payments := fun _ _ => none }

/-- A sample metadata document. -/
def exampleMeta : NftMetadata :=
  { name := "Book", description := "d", image := "i", external_url := "u" }

/-- Orchestrator state for the worked metadata example (chain `5`
registry known). -/
def exampleState : NftState :=
  { networks := [{ chain_id := 5, factory_address := "0xreg" }],
    regAddress := "", marketPlaceAddress := "", mp := { contractAddress := "" } }

/-- The example state after registry resolution targeted `0xreg`. -/
def exampleStateReg : NftState :=
  { networks := [{ chain_id := 5, factory_address := "0xreg" }],
    regAddress := "0xreg", marketPlaceAddress := "",
    mp := { contractAddress := "" } }

/-- The worked example of the spec: the owner holds contract `0xc` with
token ids `1` and `2`; the URI of both resolves, the metadata fetch
succeeds for token `1` and times out (yields nothing) for token `2`. -/
def exampleEnv : NftEnv :=
  { provider := { chainId := 5, selectedAddress := "0xowner" },
    defaultChainId := 1, loadedNetworks := [], registry := sampleRegEnv,
    mp := { hasProvider := true, readThrows := false, readResult := 0,
            userTokensResult := [{ tokenContract := "0xc", tokenIds := [1, 2] }],
            wallet := sampleWallet },
    tokenURIs := fun c id =>
      if c = "0xc" && id = "1" then some "uri1"
      else if c = "0xc" && id = "2" then some "uri2" else none,
    metadata := fun u => if u = "uri1" then some exampleMeta else none,
    payments := fun _ _ => none }

/-! ### Helper lemmas -/

/-- The big-number comparison yields `1` or `0` exactly when the first
operand is at least the second. -/
lemma bnCompare_ge_iff (a b : Nat) :
    (bnCompare a b = 1 ∨ bnCompare a b = 0) ↔ b ≤ a := by
  unfold bnCompare
  split_ifs with h1 h2 <;> norm_num <;> omega

/-- The big-number comparison yields `-1` exactly when the first operand
is less than the second. -/
lemma bnCompare_lt_iff (a b : Nat) : bnCompare a b = -1 ↔ a < b := by
  unfold bnCompare
  split_ifs with h1 h2 <;> norm_num <;> omega

/-- The registry-resolution trace is at most one networks-list load. -/
lemma initContractRegistry_trace (st : NftState) (env : NftEnv) (chainId : Nat) :
    (initContractRegistry st env chainId).2
      = if st.networks.isEmpty then [EthCall.loadNetworks] else [] := by
  unfold initContractRegistry
  dsimp only
  split
  · rfl
  · split <;> rfl

/-- The registry-resolution trace contains no metadata-pipeline call. -/
lemma initContractRegistry_no_metadata (st : NftState) (env : NftEnv)
    (chainId : Nat) :
    ((initContractRegistry st env chainId).2).all
      (fun e => ! isMetadataCall e) = true := by
  rw [initContractRegistry_trace]
  split <;> simp [isMetadataCall]

/-- The registry read emits no metadata-pipeline call. -/
lemma getMarketPlaceAddress_no_metadata (regAddress : String)
    (connected : Bool) (env : RegistryEnv) :
    ((getMarketPlaceAddress regAddress connected env).2).all
      (fun e => ! isMetadataCall e) = true := by
  unfold getMarketPlaceAddress
  split_ifs <;> simp [isMetadataCall]

/-- The marketplace (re)initialization emits no metadata-pipeline call. -/
lemma initMarketPlaceFlow_no_metadata (st : NftState) (env : NftEnv)
    (address : Option String) :
    ((initMarketPlaceFlow st env address).2).all
      (fun e => ! isMetadataCall e) = true := by
  unfold initMarketPlaceFlow
  cases h : truthyStr address <;> dsimp only <;> split <;>
    first
      | exact getMarketPlaceAddress_no_metadata _ _ _
      | simp [isMetadataCall]

/-- The user-tokens read emits no metadata-pipeline call. -/
lemma getUserTokens_no_metadata (st : MarketplaceState) (env : MarketplaceEnv)
    (u : String) (l o : Nat) :
    ((getUserTokens st env u l o).2).all (fun e => ! isMetadataCall e) = true := by
  unfold getUserTokens
  split_ifs <;> simp [isMetadataCall]

/-- The user-tokens read yields `undefined` or exactly the
environment's token list. -/
lemma getUserTokens_result (st : MarketplaceState) (env : MarketplaceEnv)
    (u : String) (l o : Nat) :
    (getUserTokens st env u l o).1 = none ∨
      (getUserTokens st env u l o).1 = some env.userTokensResult := by
  unfold getUserTokens
  split_ifs <;> simp

/-! ### Claims about the ERC-20 approval recursion -/

/-- Claim C1: with a selected wallet address, one unfolding of
`_isErc20TokenApproved` behaves as specified: when the allowance read
for (selected address, marketplace spender) is at least the requested
amount, the call returns `true` having emitted only that allowance read
and no approval; when the allowance is strictly below the amount,
exactly one approval transaction for that amount is emitted after the
read and before the recursive re-check, and the call otherwise agrees
with the recursive call on the same amount. -/
theorem erc20Approved_one_unfolding (env : Erc20Env) (mp : String)
    (amount fuel k : Nat) (hsel : env.selectedAddress ≠ "") :
    (amount ≤ (env.allowanceAt k).getD 0 →
      isErc20TokenApprovedAux env mp amount (fuel + 1) k
        = some (true, k + 1, [EthCall.getAllowance env.selectedAddress mp])) ∧
    ((env.allowanceAt k).getD 0 < amount →
      isErc20TokenApprovedAux env mp amount (fuel + 1) k
        = (isErc20TokenApprovedAux env mp amount fuel (k + 1)).map
            (fun r => (r.1, r.2.1,
              EthCall.getAllowance env.selectedAddress mp
                :: EthCall.approveErc20 mp amount :: r.2.2))) := by
  constructor
  · intro hge
    rw [isErc20TokenApprovedAux]
    simp only [if_neg hsel]
    rw [if_pos ((bnCompare_ge_iff _ _).mpr hge)]
  · intro hlt
    rw [isErc20TokenApprovedAux]
    simp only [if_neg hsel]
    rw [if_neg (by
      intro hcon
      exact absurd ((bnCompare_ge_iff _ _).mp hcon) (by omega))]
    rw [if_pos ((bnCompare_lt_iff _ _).mpr hlt)]
    cases isErc20TokenApprovedAux env mp amount fuel (k + 1) with
    | none => rfl
    | some r => rfl

/-- Claim C1 witness: with allowance `5`, a request for `3` succeeds at
once with a single allowance read, and a request for `7` emits exactly
one approval before agreeing with the re-check. -/
theorem erc20Approved_one_unfolding_witness :
    isErc20TokenApprovedAux erc20EnvRich "0xmp" 3 1 0
      = some (true, 1, [EthCall.getAllowance "0xme" "0xmp"]) ∧
    isErc20TokenApprovedAux erc20EnvRich "0xmp" 7 1 0
      = (isErc20TokenApprovedAux erc20EnvRich "0xmp" 7 0 1).map
          (fun r => (r.1, r.2.1,
            EthCall.getAllowance "0xme" "0xmp"
              :: EthCall.approveErc20 "0xmp" 7 :: r.2.2)) :=
  ⟨(erc20Approved_one_unfolding erc20EnvRich "0xmp" 3 0 0 (by decide)).1
      (by decide),
   (erc20Approved_one_unfolding erc20EnvRich "0xmp" 7 0 0 (by decide)).2
      (by decide)⟩

/-- Claim C2: the recursion of `_isErc20TokenApproved` is unbounded:
with a selected address, if every allowance read stays strictly below
the requested amount the recursion never terminates (every fuel bound
is exhausted); and whenever the recursion does return, either no
address was selected or some allowance read was at least the amount. -/
theorem erc20Approved_unbounded_recursion :
    (∀ (env : Erc20Env) (mp : String) (amount : Nat),
      env.selectedAddress ≠ "" →
      (∀ k, (env.allowanceAt k).getD 0 < amount) →
      ∀ fuel k, isErc20TokenApprovedAux env mp amount fuel k = none) ∧
    (∀ (env : Erc20Env) (mp : String) (amount fuel k : Nat)
        (b : Bool) (k2 : Nat) (tr : List EthCall),
      isErc20TokenApprovedAux env mp amount fuel k = some (b, k2, tr) →
      env.selectedAddress = "" ∨ ∃ j, amount ≤ (env.allowanceAt j).getD 0) := by
  constructor
  · intro env mp amount hsel hlow fuel
    induction fuel with
    | zero => intro k; rfl
    | succ n ih =>
      intro k
      rw [isErc20TokenApprovedAux]
      simp only [if_neg hsel]
      rw [if_neg (by
        intro hcon
        exact absurd ((bnCompare_ge_iff _ _).mp hcon) (by
          have := hlow k
          omega))]
      rw [ih (k + 1)]
  · intro env mp amount fuel
    induction fuel with
    | zero => intro k b k2 tr h; exact absurd h (by simp [isErc20TokenApprovedAux])
    | succ n ih =>
      intro k b k2 tr h
      rw [isErc20TokenApprovedAux] at h
      by_cases hsel : env.selectedAddress = ""
      · exact Or.inl hsel
      · simp only [if_neg hsel] at h
        by_cases hge : bnCompare ((env.allowanceAt k).getD 0) amount = 1 ∨
            bnCompare ((env.allowanceAt k).getD 0) amount = 0
        · exact Or.inr ⟨k, (bnCompare_ge_iff _ _).mp hge⟩
        · rw [if_neg hge] at h
          cases hrec : isErc20TokenApprovedAux env mp amount n (k + 1) with
          | none => rw [hrec] at h; exact absurd h (by simp)
          | some r =>
            exact ih (k + 1) r.1 r.2.1 r.2.2 (by rw [hrec])

/-- Claim C2 witness: with every allowance read failing (treated as
allowance `0`) and requested amount `1`, the recursion exhausts a fuel
bound of `5`; and the terminating run of the rich environment indeed
saw a sufficient allowance read. -/
theorem erc20Approved_unbounded_recursion_witness :
    isErc20TokenApprovedAux erc20EnvStuck "0xmp" 1 5 0 = none ∧
    ∃ j, (3 : Nat) ≤ (erc20EnvRich.allowanceAt j).getD 0 :=
  ⟨erc20Approved_unbounded_recursion.1 erc20EnvStuck "0xmp" 1 (by decide)
      (fun k => by simp [erc20EnvStuck]) 5 0,
   erc20Approved_unbounded_recursion.2 erc20EnvRich "0xmp" 3 1 0 true 1
      [EthCall.getAllowance "0xme" "0xmp"] (by decide) |>.resolve_left
      (by decide)⟩

/-- Claim C10: with no selected wallet address, `_isErc20TokenApproved`
returns `false` at once with an empty call trace (no allowance read, no
approval transaction), and `approveTokenSpend` likewise issues no call
at all, whatever the token type. -/
theorem erc20Approved_no_address (env : Erc20Env) (mp : String)
    (amount fuel : Nat) (tokenType : TokenType) (tokenAmount : Option Nat)
    (tokenAddress tokenId : Option String)
    (hsel : env.selectedAddress = "") :
    isErc20TokenApproved env mp amount fuel = some (false, 0, []) ∧
    approveTokenSpend env mp tokenType tokenAmount tokenAddress tokenId fuel
      = some [] := by
  constructor
  · rw [isErc20TokenApproved, if_pos hsel]
  · rw [approveTokenSpend.eq_def, if_pos (Or.inl hsel)]

/-- Claim C10 witness: the address-less environment returns `false`
with no calls, and `approveTokenSpend` for the ERC-20 type is a no-op. -/
theorem erc20Approved_no_address_witness :
    isErc20TokenApproved erc20EnvNoAddr "0xmp" 9 4 = some (false, 0, []) ∧
    approveTokenSpend erc20EnvNoAddr "0xmp" TokenType.erc20 (some 9)
      (some "0xtok") none 4 = some [] :=
  erc20Approved_no_address erc20EnvNoAddr "0xmp" 9 4 TokenType.erc20 (some 9)
    (some "0xtok") none (by decide)

/-! ### Claims about the wallet wrapper state -/

/-- Claim C9: the wallet `disconnect` event handler clears only the
selected address: afterwards `selectedAddress` is empty, `chainId` is
unchanged, and the derived `isConnected` is `false`. -/
theorem disconnect_clears_only_address (p : ProviderState) :
    (onDisconnect p).selectedAddress = "" ∧
    (onDisconnect p).chainId = p.chainId ∧
    isConnected (onDisconnect p) = false := by
  refine ⟨rfl, rfl, ?_⟩
  simp [isConnected, onDisconnect]

/-! ### Claims about `getNftList` and `getNft` entry guards -/

/-- Claim C8: `getNftList` with limit `0` returns the empty list
immediately, with an empty call trace — before any registry
resolution, marketplace read, or metadata fetch, whatever the provider
state or token ownership. -/
theorem getNftList_zero_limit (st : NftState) (env : NftEnv)
    (userAddress : String) (offset : Nat) :
    getNftList st env userAddress 0 offset = (Except.ok [], []) := by
  rw [getNftList]
  simp

/-- Claim C4: `getNft` on a disconnected provider throws
`Provider is not connected` with an empty call trace — no registry,
marketplace, or ERC-721 call and no fetch happens before the throw. -/
theorem getNft_disconnected (st : NftState) (env : NftEnv)
    (collectionAddress tokenId : String)
    (h : isConnected env.provider = false) :
    getNft st env collectionAddress tokenId
      = (Except.error "Provider is not connected", []) := by
  rw [getNft, if_pos (by simp [h])]

/-- Claim C4 witness: the disconnected environment produces exactly the
connection error and no calls. -/
theorem getNft_disconnected_witness :
    getNft sampleNftState disconnectedNftEnv "0xc" "1"
      = (Except.error "Provider is not connected", []) :=
  getNft_disconnected sampleNftState disconnectedNftEnv "0xc" "1" (by decide)

/-! ### Claims about the marketplace accessor guards and error routing -/

/-- Claim C3 counterexample: with an empty (uninitialized) contract
address, `buyTokenWithERC20` and `buyTokenWithNFT` still sign and send
a transaction (addressed to the empty string): the accessor does call
out before initialization, refuting the claim for these two purchase
variants. -/
theorem buyErc20_uninitialized_sends_tx :
    buyTokenWithERC20 { contractAddress := "" } sampleMpEnvZero
        sampleBuyParams sampleSig = (some 7, [EthCall.sendTx ""]) ∧
    (buyTokenWithERC20 { contractAddress := "" } sampleMpEnvZero
        sampleBuyParams sampleSig).2 ≠ [] ∧
    buyTokenWithNFT { contractAddress := "" } sampleMpEnvZero
        sampleBuyParams sampleSig = (some 7, [EthCall.sendTx ""]) := by
  refine ⟨rfl, ?_, rfl⟩
  intro h
  simp [buyTokenWithERC20, signAndSendTransaction, sampleMpEnvZero,
    sampleWallet] at h

/-- Claim C3 (amended): while the contract address is empty, the five
paginated reads and `buyTokenWithETH` return `undefined` without
issuing any call; `buyTokenWithERC20` and `buyTokenWithNFT`, which lack
the `contractInstance` guard, are excluded. -/
theorem marketplace_guards_uninitialized (st : MarketplaceState)
    (env : MarketplaceEnv) (tokenContracts : List String) (l o : Nat)
    (u : String) (bp : BuyParams) (sig : Signature) (v : Option String)
    (h : st.contractAddress = "") :
    getTokenParams st env tokenContracts = (none, []) ∧
    getTokenContractsCount st env = (none, []) ∧
    getBooksContracts st env l o = (none, []) ∧
    getBooksBatch st env l o = (none, []) ∧
    getUserTokens st env u l o = (none, []) ∧
    buyTokenWithETH st env bp sig v = (none, []) := by
  have hinst : mpInstanceDefined st env = false := by
    simp [mpInstanceDefined, h]
  refine ⟨?_, ?_, ?_, ?_, ?_, ?_⟩ <;>
    simp [getTokenParams, getTokenContractsCount, getBooksContracts,
      getBooksBatch, getUserTokens, buyTokenWithETH, mpRead, hinst]

/-- Claim C3 witness: the guarded operations of a fresh accessor issue
no call. -/
theorem marketplace_guards_uninitialized_witness :
    getTokenParams { contractAddress := "" } sampleMpEnvZero ["0xc"]
      = (none, []) ∧
    getTokenContractsCount { contractAddress := "" } sampleMpEnvZero
      = (none, []) ∧
    getBooksContracts { contractAddress := "" } sampleMpEnvZero 10 0
      = (none, []) ∧
    getBooksBatch { contractAddress := "" } sampleMpEnvZero 10 0
      = (none, []) ∧
    getUserTokens { contractAddress := "" } sampleMpEnvZero "0xme" 10 0
      = (none, []) ∧
    buyTokenWithETH { contractAddress := "" } sampleMpEnvZero
      sampleBuyParams sampleSig (some "12") = (none, []) :=
  marketplace_guards_uninitialized { contractAddress := "" } sampleMpEnvZero
    ["0xc"] 10 0 "0xme" sampleBuyParams sampleSig (some "12") rfl

/-- Claim C7 counterexample: `getBalance` has no `try`/`catch`: when the
provider read throws, the exception propagates to the caller
(`Except.error`) and nothing is routed to the centralized handler —
refuting the claim that every listed operation returns `undefined`
after routing the failure. -/
theorem getBalance_propagates_exception :
    getBalanceOp throwingWallet "0xme"
      = (Except.error (), [EthCall.getBalance "0xme"]) := rfl

/-- Claim C7 (amended): for the marketplace paginated reads, the three
purchase calls and `signAndSendTransaction`, a failure of the
underlying provider or contract call is caught at the call site, routed
to the centralized error handler, and the operation returns `undefined`
to its caller; `getBalance`, however, has no catch and lets the
exception propagate. -/
theorem ops_catch_and_return_undefined (st : MarketplaceState)
    (env : MarketplaceEnv) (wenv : WalletEnv) (tokenContracts : List String)
    (l o : Nat) (u : String) (bp : BuyParams) (sig : Signature)
    (v : Option String) (tx : TxRequestBody) (a : String)
    (hread : env.readThrows = true) (htx : env.wallet.txThrows = true)
    (hwtx : wenv.txThrows = true) (hbal : wenv.balanceThrows = true)
    (hinst : mpInstanceDefined st env = true) :
    getTokenParams st env tokenContracts
      = (none, [EthCall.contractRead "getDetailedTokenInfo" st.contractAddress,
                EthCall.handleError]) ∧
    getTokenContractsCount st env
      = (none, [EthCall.contractRead "getActiveTokenContractsCount"
                  st.contractAddress, EthCall.handleError]) ∧
    getBooksContracts st env l o
      = (none, [EthCall.contractRead "getTokenContractsPart" st.contractAddress,
                EthCall.handleError]) ∧
    getBooksBatch st env l o
      = (none, [EthCall.contractRead "getBriefTokenInfoPart" st.contractAddress,
                EthCall.handleError]) ∧
    getUserTokens st env u l o
      = (none, [EthCall.contractRead "getUserTokensPart" st.contractAddress,
                EthCall.handleError]) ∧
    buyTokenWithETH st env bp sig v
      = (none, [EthCall.sendTx st.contractAddress, EthCall.handleError]) ∧
    buyTokenWithERC20 st env bp sig
      = (none, [EthCall.sendTx st.contractAddress, EthCall.handleError]) ∧
    buyTokenWithNFT st env bp sig
      = (none, [EthCall.sendTx st.contractAddress, EthCall.handleError]) ∧
    signAndSendTransaction wenv tx
      = (none, [EthCall.sendTx tx.dest, EthCall.handleError]) ∧
    getBalanceOp wenv a = (Except.error (), [EthCall.getBalance a]) := by
  refine ⟨?_, ?_, ?_, ?_, ?_, ?_, ?_, ?_, ?_, ?_⟩ <;>
    simp [getTokenParams, getTokenContractsCount, getBooksContracts,
      getBooksBatch, getUserTokens, buyTokenWithETH, buyTokenWithERC20,
      buyTokenWithNFT, signAndSendTransaction, getBalanceOp, mpRead,
      hinst, hread, htx, hwtx, hbal]

/-- Claim C7 witness: with a throwing environment and an initialized
accessor, every guarded operation returns `undefined` after routing to
the handler, and `getBalance` propagates its error. -/
theorem ops_catch_and_return_undefined_witness :
    getTokenParams { contractAddress := "0xmarket" } throwingMpEnv ["0xc"]
      = (none, [EthCall.contractRead "getDetailedTokenInfo" "0xmarket",
                EthCall.handleError]) ∧
    getTokenContractsCount { contractAddress := "0xmarket" } throwingMpEnv
      = (none, [EthCall.contractRead "getActiveTokenContractsCount" "0xmarket",
                EthCall.handleError]) ∧
    getBooksContracts { contractAddress := "0xmarket" } throwingMpEnv 10 0
      = (none, [EthCall.contractRead "getTokenContractsPart" "0xmarket",
                EthCall.handleError]) ∧
    getBooksBatch { contractAddress := "0xmarket" } throwingMpEnv 10 0
      = (none, [EthCall.contractRead "getBriefTokenInfoPart" "0xmarket",
                EthCall.handleError]) ∧
    getUserTokens { contractAddress := "0xmarket" } throwingMpEnv "0xme" 10 0
      = (none, [EthCall.contractRead "getUserTokensPart" "0xmarket",
                EthCall.handleError]) ∧
    buyTokenWithETH { contractAddress := "0xmarket" } throwingMpEnv
      sampleBuyParams sampleSig (some "12")
      = (none, [EthCall.sendTx "0xmarket", EthCall.handleError]) ∧
    buyTokenWithERC20 { contractAddress := "0xmarket" } throwingMpEnv
      sampleBuyParams sampleSig
      = (none, [EthCall.sendTx "0xmarket", EthCall.handleError]) ∧
    buyTokenWithNFT { contractAddress := "0xmarket" } throwingMpEnv
      sampleBuyParams sampleSig
      = (none, [EthCall.sendTx "0xmarket", EthCall.handleError]) ∧
    signAndSendTransaction throwingWallet
      { dest := "0xmarket", data := CallData.buyETH sampleBuyParams sampleSig,
        value := none }
      = (none, [EthCall.sendTx "0xmarket", EthCall.handleError]) ∧
    getBalanceOp throwingWallet "0xyou"
      = (Except.error (), [EthCall.getBalance "0xyou"]) :=
  ops_catch_and_return_undefined { contractAddress := "0xmarket" }
    throwingMpEnv throwingWallet ["0xc"] 10 0 "0xme" sampleBuyParams sampleSig
    (some "12")
    { dest := "0xmarket", data := CallData.buyETH sampleBuyParams sampleSig,
      value := none }
    "0xyou" rfl rfl rfl rfl (by decide)

/-- Claim C6 counterexample: on a connected chain where the user owns
zero tokens and the limit is positive, `getNftList` returns the empty
list but its call trace is not empty: it performs the registry
marketplace-address read and the marketplace user-tokens read, refuting
the claim that no network call is performed. -/
theorem getNftList_zero_tokens_counterexample :
    getNftList zeroTokensState zeroTokensEnv "0xme" 1 0
      = (Except.ok [],
         [EthCall.contractRead "getMarketplaceContract" "0xreg",
          EthCall.contractRead "getUserTokensPart" "0xmarket"]) ∧
    (getNftList zeroTokensState zeroTokensEnv "0xme" 1 0).2 ≠ [] := by
  have h : getNftList zeroTokensState zeroTokensEnv "0xme" 1 0
      = (Except.ok [],
         [EthCall.contractRead "getMarketplaceContract" "0xreg",
          EthCall.contractRead "getUserTokensPart" "0xmarket"]) := rfl
  exact ⟨h, by rw [h]; simp⟩

/-- Claim C6 (amended): for every call to `getNftList` with a positive
limit where the user owns zero tokens, no metadata-pipeline call (no
ERC-721 `tokenURI` read, no metadata fetch) is performed and every
successful result is the empty list; the function does, however, still
resolve the registry and issue the marketplace user-tokens read. -/
theorem getNftList_zero_tokens (st : NftState) (env : NftEnv) (u : String)
    (limit offset : Nat) (hlim : limit ≠ 0)
    (hzero : env.mp.userTokensResult = []) :
    ((getNftList st env u limit offset).2).all
      (fun e => ! isMetadataCall e) = true ∧
    (∀ l, (getNftList st env u limit offset).1 = Except.ok l → l = []) := by
  unfold getNftList
  rw [if_neg hlim]
  rcases hreg : initContractRegistry st env env.provider.chainId with ⟨r, tr1⟩
  have h1 : tr1.all (fun e => ! isMetadataCall e) = true := by
    have hh := initContractRegistry_no_metadata st env env.provider.chainId
    rw [hreg] at hh
    exact hh
  cases r with
  | error e =>
    refine ⟨h1, ?_⟩
    intro l hcontra
    simp at hcontra
  | ok st1 =>
    dsimp only
    rcases hflow : initMarketPlaceFlow st1 env none with ⟨st2, tr2⟩
    have h2 : tr2.all (fun e => ! isMetadataCall e) = true := by
      have hh := initMarketPlaceFlow_no_metadata st1 env none
      rw [hflow] at hh
      exact hh
    dsimp only
    rcases hut : getUserTokens st2.mp env.mp u limit offset with ⟨raw, tr3⟩
    have h3 : tr3.all (fun e => ! isMetadataCall e) = true := by
      have hh := getUserTokens_no_metadata st2.mp env.mp u limit offset
      rw [hut] at hh
      exact hh
    have hraw : raw = none ∨ raw = some [] := by
      have hh := getUserTokens_result st2.mp env.mp u limit offset
      rw [hut, hzero] at hh
      exact hh
    dsimp only
    rcases hraw with hraw | hraw <;> subst hraw
    · constructor
      · simp [List.all_append, h1, h2, h3]
      · intro l hok
        simp at hok
        exact hok
    · constructor
      · simp [processContracts, List.all_append, h1, h2, h3]
      · intro l hok
        simp [processContracts] at hok
        exact hok

/-- Claim C6 witness: the concrete zero-token run issues no
metadata-pipeline call and every successful result is empty. -/
theorem getNftList_zero_tokens_witness :
    ((getNftList zeroTokensState zeroTokensEnv "0xme" 1 0).2).all
      (fun e => ! isMetadataCall e) = true ∧
    (∀ l, (getNftList zeroTokensState zeroTokensEnv "0xme" 1 0).1
        = Except.ok l → l = []) :=
  getNftList_zero_tokens zeroTokensState zeroTokensEnv "0xme" 1 0
    (by decide) rfl

/-- The token list built by the inner metadata loop keeps exactly the
tokens whose URI resolves truthily and whose metadata fetch succeeds,
in order — every other token is silently skipped. -/
lemma processTokenIds_filterMap (env : NftEnv) (c : String) (ids : List String) :
    (processTokenIds env c ids).1
      = ids.filterMap (fun id =>
          (truthyStr (env.tokenURIs c id)).bind (fun uri =>
            (env.metadata uri).map (fun m =>
              { tokenContract := c, tokenId := id, metadata := m }))) := by
  induction ids with
  | nil => rfl
  | cons id rest ih =>
    rw [processTokenIds]
    cases h : truthyStr (env.tokenURIs c id) with
    | none =>
      rcases hrec : processTokenIds env c rest with ⟨l, tr⟩
      rw [hrec] at ih
      dsimp only at ih ⊢
      simp only [List.filterMap_cons, h, Option.none_bind]
      exact ih
    | some uri =>
      cases hm : env.metadata uri with
      | none =>
        rcases hrec : processTokenIds env c rest with ⟨l, tr⟩
        rw [hrec] at ih
        dsimp only at ih ⊢
        simp only [List.filterMap_cons, h, Option.some_bind, hm, Option.map_none']
        exact ih
      | some m =>
        rcases hrec : processTokenIds env c rest with ⟨l, tr⟩
        rw [hrec] at ih
        dsimp only at ih ⊢
        simp only [List.filterMap_cons, h, Option.some_bind, hm, Option.map_some']
        exact congrArg _ ih

/-- Claim C5: a failed token-URI read or a failed (or timed-out)
metadata fetch is skipped silently by `getNftList` while `getNft` turns
it into an explicit error: (1) `getNft` fails with
`Failed to get tokenURI` when the URI cannot be obtained, (2) `getNft`
fails with `Failed to get metadata` when the metadata fetch yields
nothing, (3) the list pipeline keeps exactly the tokens whose URI and
metadata both resolve, and (4) in the worked example — one contract
with token ids `1` and `2` where the metadata fetch succeeds for `1`
and times out for `2` — `getNftList` returns exactly the entry for
token `1`. -/
theorem metadata_failure_skips_list_throws_getNft :
    (∀ (st : NftState) (env : NftEnv) (c t : String) (st1 : NftState)
        (tr1 : List EthCall),
      isConnected env.provider = true →
      initContractRegistry st env env.provider.chainId = (Except.ok st1, tr1) →
      truthyStr (env.tokenURIs c t) = none →
      (getNft st env c t).1 = Except.error "Failed to get tokenURI") ∧
    (∀ (st : NftState) (env : NftEnv) (c t : String) (st1 : NftState)
        (tr1 : List EthCall) (uri : String),
      isConnected env.provider = true →
      initContractRegistry st env env.provider.chainId = (Except.ok st1, tr1) →
      truthyStr (env.tokenURIs c t) = some uri →
      env.metadata uri = none →
      (getNft st env c t).1 = Except.error "Failed to get metadata") ∧
    (∀ (env : NftEnv) (c : String) (ids : List String),
      (processTokenIds env c ids).1
        = ids.filterMap (fun id =>
            (truthyStr (env.tokenURIs c id)).bind (fun uri =>
              (env.metadata uri).map (fun m =>
                { tokenContract := c, tokenId := id, metadata := m })))) ∧
    (getNftList exampleState exampleEnv "0xowner" 10 0).1
      = Except.ok [{ tokenContract := "0xc", tokenId := "1",
                     metadata := exampleMeta }] := by
  refine ⟨?_, ?_, processTokenIds_filterMap, rfl⟩
  · intro st env c t st1 tr1 hconn hreg htok
    unfold getNft
    rw [if_neg (by simp [hconn]), hreg]
    dsimp only
    rcases hflow : initMarketPlaceFlow st1 env none with ⟨st2, tr2⟩
    rw [htok]
  · intro st env c t st1 tr1 uri hconn hreg htok hmeta
    unfold getNft
    rw [if_neg (by simp [hconn]), hreg]
    dsimp only
    rcases hflow : initMarketPlaceFlow st1 env none with ⟨st2, tr2⟩
    rw [htok]
    dsimp only
    rw [hmeta]

/-- Claim C5 witness: in the example environment, `getNft` on the
unknown token `9` fails with the token-URI error, and on token `2`
(whose metadata fetch times out) fails with the metadata error. -/
theorem metadata_failure_skips_list_throws_getNft_witness :
    (getNft exampleState exampleEnv "0xc" "9").1
      = Except.error "Failed to get tokenURI" ∧
    (getNft exampleState exampleEnv "0xc" "2").1
      = Except.error "Failed to get metadata" ∧
    (processTokenIds exampleEnv "0xc" ["1", "2"]).1
      = ["1", "2"].filterMap (fun id =>
          (truthyStr (exampleEnv.tokenURIs "0xc" id)).bind (fun uri =>
            (exampleEnv.metadata uri).map (fun m =>
              { tokenContract := "0xc", tokenId := id, metadata := m }))) :=
  ⟨metadata_failure_skips_list_throws_getNft.1 exampleState exampleEnv "0xc" "9"
      exampleStateReg [] rfl rfl rfl,
   metadata_failure_skips_list_throws_getNft.2.1 exampleState exampleEnv "0xc"
      "2" exampleStateReg [] "uri2" rfl rfl rfl rfl,
   metadata_failure_skips_list_throws_getNft.2.2.1 exampleEnv "0xc" ["1", "2"]⟩

end NftBooks
